import Mathlib

/-!
Verification of the client-clearance recommendation system
(`src/models/text_analyzer.py` and `src/engine/recommendation_engine.py`).

Python floats are modelled as exact rationals; Python's `round(x, n)`
(round-half-to-even) is modelled by `roundQ n`.  Python strings are
modelled by `String`/`List Char`; `keyword in text` (substring test) is
modelled by `occursIn`; `str.lower()` is modelled ASCII-wise by
`lowerStr`.  Dictionaries with a fixed key set are modelled as
structures; dictionaries used as lookup tables are association lists,
with `dict.get(k, d)` as `(List.lookup k t).getD d`, which preserves the
source's insertion order.
-/

namespace ClientClearance

/-- Round half to even to the nearest integer, as Python's builtin
`round` does on exact values. -/
def rhe (x : ℚ) : ℤ :=
  if x - ⌊x⌋ < 1/2 then ⌊x⌋
  else if 1/2 < x - ⌊x⌋ then ⌊x⌋ + 1
  else if ⌊x⌋ % 2 = 0 then ⌊x⌋ else ⌊x⌋ + 1

/-- Python's `round(x, n)`: round to `n` decimal digits, half to even. -/
def roundQ (n : ℕ) (x : ℚ) : ℚ :=
  (rhe (x * 10 ^ n) : ℚ) / 10 ^ n

/-! ### Strings and substring matching -/

/-- `needle.isPrefixOf hay` on character lists (Python `hay.startswith(needle)`). -/
def charPrefix : List Char → List Char → Bool
  | [], _ => true
  | _ :: _, [] => false
  | c :: cs, d :: ds => c == d && charPrefix cs ds

/-- Python's `needle in hay` substring test on character lists. -/
def containsSub (hay needle : List Char) : Bool :=
  charPrefix needle hay ||
    match hay with
    | [] => false
    | _ :: t => containsSub t needle

/-- ASCII model of Python's `str.lower()` on a single character. -/
def lowerChar (c : Char) : Char :=
  if 65 ≤ c.toNat ∧ c.toNat ≤ 90 then Char.ofNat (c.toNat + 32) else c

/-- ASCII model of Python's `text.lower()`, as a character list. -/
def lowerStr (s : String) : List Char :=
  s.data.map lowerChar

/-- Python's `keyword in text.lower()` (all lexicon keywords are lower-case). -/
def occursIn (keyword : String) (text : String) : Bool :=
  containsSub (lowerStr text) keyword.data

/-- `sum(1 for keyword in keywords if keyword in text_lower)`. -/
def countMatches (keywords : List String) (text : String) : ℕ :=
  (keywords.filter (fun k => occursIn k text)).length

/-! ### Lexicon tables of `TextAnalyzer.__init__` -/

/-- `self.business_keywords` (insertion order preserved). -/
def business_keywords : List (String × List String) :=
  [("retail", ["store", "shop", "retail", "ecommerce", "online store", "marketplace", "selling", "products"]),
   ("restaurant", ["restaurant", "food", "delivery", "takeout", "dining", "cafe", "menu", "kitchen"]),
   ("healthcare", ["medical", "healthcare", "clinic", "hospital", "patient", "doctor", "health", "medicine"]),
   ("education", ["school", "education", "learning", "course", "training", "academy", "student", "teaching"]),
   ("logistics", ["logistics", "shipping", "delivery", "warehouse", "supply chain", "transport", "freight"]),
   ("finance", ["banking", "finance", "investment", "accounting", "budget", "money", "financial"]),
   ("real_estate", ["real estate", "property", "housing", "rental", "mortgage", "realty", "home"]),
   ("consulting", ["consulting", "consultant", "advisory", "professional services", "business advice"])]

/-- `self.platform_indicators`. -/
def platform_indicators : List (String × List String) :=
  [("mobile", ["mobile", "phone", "android", "ios", "smartphone", "tablet"]),
   ("web", ["website", "web", "online", "browser", "internet", "web application"]),
   ("desktop", ["desktop", "computer", "pc", "software", "application", "program"])]

/-- `self.feature_keywords`. -/
def feature_keywords : List (String × List String) :=
  [("inventory", ["inventory", "stock", "products", "items", "catalog"]),
   ("payment", ["payment", "billing", "checkout", "pay", "money", "transaction"]),
   ("tracking", ["tracking", "monitoring", "analytics", "reports", "dashboard"]),
   ("user_management", ["users", "accounts", "profiles", "registration", "login"]),
   ("communication", ["chat", "messaging", "email", "notifications", "alerts"]),
   ("scheduling", ["appointments", "booking", "calendar", "schedule", "reservations"]),
   ("reporting", ["reports", "analytics", "statistics", "data", "insights"])]

/-! ### Text Signal Extractor (`text_analyzer.py`) -/

/-- Python's `max(scores, key=scores.get)` over an association list built in
insertion order: the fold keeps the current best unless a later entry is
strictly greater, hence ties go to the first entry reaching the maximum. -/
def pyMaxBy : List (String × ℕ) → String × ℕ
  | [] => ("", 0)
  | x :: xs => xs.foldl (fun b a => if b.2 < a.2 then a else b) x

/-- `max(len(keywords) for keywords in self.business_keywords.values())`. -/
def maxBusinessKeywordSetSize : ℕ :=
  (business_keywords.map (fun p => p.2.length)).foldl Nat.max 0

/-- The per-category keyword-match counts of `_classify_business_type`. -/
def businessScores (text : String) : List (String × ℕ) :=
  business_keywords.map (fun p => (p.1, countMatches p.2 text))

/-- `TextAnalyzer._classify_business_type`. -/
def _classify_business_type (text : String) : String × ℚ :=
  if (businessScores text).all (fun p => p.2 = 0) then ("unknown", 0)
  else ((pyMaxBy (businessScores text)).1,
    roundQ 2 (((pyMaxBy (businessScores text)).2 : ℚ) / maxBusinessKeywordSetSize))

/-- `max(len(keywords) for keywords in self.platform_indicators.values())`. -/
def maxPlatformKeywordSetSize : ℕ :=
  (platform_indicators.map (fun p => p.2.length)).foldl Nat.max 0

/-- The per-platform keyword-match counts of `_detect_platform_preference`. -/
def platformScores (text : String) : List (String × ℕ) :=
  platform_indicators.map (fun p => (p.1, countMatches p.2 text))

/-- `TextAnalyzer._detect_platform_preference`. -/
def _detect_platform_preference (text : String) : String × ℚ :=
  if (platformScores text).all (fun p => p.2 = 0) then ("web", 3/10)
  else ((pyMaxBy (platformScores text)).1,
    roundQ 2 (((pyMaxBy (platformScores text)).2 : ℚ) / maxPlatformKeywordSetSize))

/-- `TextAnalyzer._extract_features`: the feature categories any of whose
keywords occurs in the lower-cased text, in table order. -/
def _extract_features (text : String) : List String :=
  (feature_keywords.filter (fun p => p.2.any (fun k => occursIn k text))).map Prod.fst

/-- Major-notification keywords of `_detect_notification_requirement`. -/
def major_notification_keywords : List String :=
  ["notification", "alert", "push", "real-time", "instant", "immediate",
   "urgent", "emergency", "critical", "important", "reminder", "ping",
   "message", "update", "status", "tracking", "monitoring", "live",
   "notify", "alarm", "warning", "announcement", "broadcast"]

/-- Minor-notification keywords of `_detect_notification_requirement`. -/
def minor_notification_keywords : List String :=
  ["email", "report", "summary", "daily", "weekly", "monthly",
   "newsletter", "update", "news", "information", "communication"]

/-- `TextAnalyzer._detect_notification_requirement` (`major_count` and
`minor_count` inlined). -/
def _detect_notification_requirement (text : String) : String :=
  if 2 ≤ countMatches major_notification_keywords text then "major"
  else if 0 < countMatches minor_notification_keywords text then "minor"
  else "none"

/-! ### Clarification policy (`text_analyzer.py`) -/

/-- The analysis dictionary produced by `TextAnalyzer.analyze_text`,
restricted to the fields the engine and the clarification policy read.
`budgetMentioned` / `timelineMentioned` stand for
`budget_indicators['budget_mentioned']` / `timeline_indicators['timeline_mentioned']`. -/
structure Signals where
  clarityScore : ℚ
  businessType : String × ℚ
  platformPreference : String × ℚ
  detectedFeatures : List String
  budgetMentioned : Bool
  timelineMentioned : Bool
  notificationRequirement : String
  deriving Repr, DecidableEq

/-- `TextAnalyzer.needs_clarification`. -/
def needs_clarification (s : Signals) : Bool :=
  decide (s.clarityScore < 5/10) ||
  (s.businessType.1 == "unknown") ||
  decide (s.businessType.2 < 3/10) ||
  (s.detectedFeatures.length == 0)

/-- `TextAnalyzer.generate_clarification_questions`, translated statement by
statement: start from `[]`, conditionally append each question, return the
first three. -/
def generate_clarification_questions (s : Signals) : List String :=
  let q0 : List String := []
  let q1 := if s.businessType.1 == "unknown" || decide (s.businessType.2 < 3/10) then
    q0 ++ ["What type of business do you operate?"] else q0
  let q2 := if s.detectedFeatures.length == 0 then
    q1 ++ ["What specific features or functionality do you need?"] else q1
  let q3 := if ! s.budgetMentioned then
    q2 ++ ["Do you have a budget range in mind for this project?"] else q2
  let q4 := if ! s.timelineMentioned then
    q3 ++ ["When do you need this system to be completed?"] else q3
  let q5 := if decide (s.clarityScore < 4/10) then
    q4 ++ ["Can you provide more details about your business requirements?"] else q4
  q5.take 3

/-- The clarification policy as the specification words it: the ordered
rule table (trigger condition, question), of which the first three
applicable entries are asked. -/
def clarificationRules (s : Signals) : List (Bool × String) :=
  [(s.businessType.1 == "unknown" || decide (s.businessType.2 < 3/10),
     "What type of business do you operate?"),
   (s.detectedFeatures.length == 0,
     "What specific features or functionality do you need?"),
   (! s.budgetMentioned,
     "Do you have a budget range in mind for this project?"),
   (! s.timelineMentioned,
     "When do you need this system to be completed?"),
   (decide (s.clarityScore < 4/10),
     "Can you provide more details about your business requirements?")]

/-- Spec reading of the clarification policy: keep the applicable rules in
priority order, ask the first three. -/
def questionsSpec (s : Signals) : List String :=
  (((clarificationRules s).filter Prod.fst).map Prod.snd).take 3

/-! ### Recommendation engine tables (`RecommendationEngine.__init__`) -/

/-- One technology-stack record of `self.tech_stacks[platform][stack_id]`. -/
structure TechStack where
  name : String
  description : String
  pros : List String
  cons : List String
  cost_factor : ℚ
  timeline_factor : ℚ
  deriving Repr, DecidableEq

/-- `self.tech_stacks`, insertion order preserved at both levels. -/
def tech_stacks : List (String × List (String × TechStack)) :=
  [("mobile",
    [("flutter", ⟨"Flutter + Firebase", "Cross-platform mobile development with cloud backend",
      ["Cross-platform", "Fast development", "Rich UI components"],
      ["Limited native features", "Large app size"], 1, 1⟩),
     ("react_native", ⟨"React Native + Node.js", "JavaScript-based mobile development",
      ["Cross-platform", "Large community", "Reusable code"],
      ["Performance issues", "Native dependencies"], 9/10, 11/10⟩),
     ("native_ios", ⟨"Swift + iOS Native", "Native iOS development",
      ["Best performance", "Full iOS features", "App Store optimization"],
      ["iOS only", "Higher cost", "Longer timeline"], 13/10, 14/10⟩),
     ("native_android", ⟨"Kotlin + Android Native", "Native Android development",
      ["Best performance", "Full Android features", "Google Play optimization"],
      ["Android only", "Higher cost", "Longer timeline"], 12/10, 13/10⟩)]),
   ("web",
    [("mern", ⟨"MERN Stack (MongoDB, Express, React, Node.js)", "Full-stack JavaScript development",
      ["Fast development", "Large ecosystem", "Scalable"],
      ["JavaScript everywhere", "Learning curve"], 8/10, 9/10⟩),
     ("mean", ⟨"MEAN Stack (MongoDB, Express, Angular, Node.js)", "Full-stack JavaScript with Angular",
      ["TypeScript support", "Enterprise-ready", "Comprehensive framework"],
      ["Steep learning curve", "Heavy framework"], 1, 11/10⟩),
     ("django", ⟨"Django + PostgreSQL", "Python-based web development",
      ["Rapid development", "Built-in admin", "Security features"],
      ["Less flexible", "Monolithic"], 9/10, 8/10⟩),
     ("laravel", ⟨"Laravel + MySQL", "PHP-based web development",
      ["Elegant syntax", "Rich ecosystem", "Easy deployment"],
      ["PHP ecosystem", "Performance concerns"], 7/10, 9/10⟩)]),
   ("desktop",
    [("electron", ⟨"Electron + React", "Cross-platform desktop development",
      ["Cross-platform", "Web technologies", "Rapid development"],
      ["Large app size", "Memory usage", "Security concerns"], 8/10, 9/10⟩),
     ("qt", ⟨"Qt + Python", "Native desktop development",
      ["Native performance", "Cross-platform", "Rich UI"],
      ["Complex setup", "Licensing costs"], 11/10, 12/10⟩),
     ("wpf", ⟨"WPF + C#", "Windows desktop development",
      ["Native Windows", "Rich UI", "Good performance"],
      ["Windows only", "Microsoft ecosystem"], 1, 1⟩)])]

/-- `self.business_features` (only the first three entries of each list are
ever used by `_recommend_features`, but the table is embedded whole). -/
def business_features : List (String × List String) :=
  [("retail", ["inventory_management", "payment_processing", "order_tracking",
               "customer_management", "analytics_dashboard", "multi_vendor_support"]),
   ("restaurant", ["menu_management", "online_ordering", "delivery_tracking",
                   "reservation_system", "kitchen_display", "loyalty_program"]),
   ("healthcare", ["patient_management", "appointment_scheduling", "medical_records",
                   "billing_system", "prescription_management", "telemedicine"]),
   ("education", ["course_management", "student_portal", "progress_tracking",
                  "video_streaming", "assignment_submission", "grade_management"]),
   ("logistics", ["route_optimization", "real_time_tracking", "inventory_management",
                  "driver_app", "warehouse_management", "analytics_dashboard"]),
   ("finance", ["account_management", "transaction_history", "budget_tracking",
                "financial_reports", "investment_portfolio", "loan_management"]),
   ("real_estate", ["property_listings", "search_filters", "virtual_tours",
                    "contact_forms", "lead_management", "property_analytics"]),
   ("consulting", ["project_management", "time_tracking", "client_billing",
                   "report_generation", "resource_management", "knowledge_base"])]

/-! ### Platform recommender (`_recommend_platform`) -/

/-- The dictionary `_recommend_platform` returns: keys `'type'`,
`'platform'`, `'confidence'`, `'reasoning'`.  (Note the business type is
stored under the key `'type'`.) -/
structure PlatformRec where
  type : String
  platform : String
  confidence : ℚ
  reasoning : String
  deriving Repr, DecidableEq

/-- Python's one-word `str.title()` as used on a detected platform name. -/
def pyTitle (s : String) : String :=
  match s.data with
  | [] => ""
  | c :: t => ⟨Char.ofNat (if 97 ≤ c.toNat ∧ c.toNat ≤ 122 then c.toNat - 32 else c.toNat) :: t⟩

/-- `RecommendationEngine._recommend_platform`, after the three
`additional_info[...]` accesses have succeeded (see `dictGet` below for
the failure path).  `portability`, `business_type` and `access` are the
values of `additional_info['portability_requirement' / 'business_type' /
'access_requirement']`; `analysis.get('notification_requirement', '').lower()`
is `lowerStr` of the signal. -/
def _recommend_platform (s : Signals) (portability business_type access : String) : PlatformRec :=
  if portability = "high" ∨ lowerStr s.notificationRequirement = "major".data then
    { type := business_type, platform := "mobile", confidence := 95/100,
      reasoning := "Mobile recommended due to high portability requirement" }
  else if portability = "low" ∨ access = "offline" then
    { type := business_type, platform := "desktop", confidence := 9/10,
      reasoning := "Desktop recommended due to low portability requirement" }
  else
    { type := business_type, platform := s.platformPreference.1, confidence := 9/10,
      reasoning := pyTitle s.platformPreference.1 ++ " recommended due to medium portability requirement" }

/-! ### Feature recommender (`_recommend_features`) -/

/-- The `requested_features` loop: append each feature not already present
among the accumulated `'feature'` fields. -/
def addRequested (acc : List String) (requested : List String) : List String :=
  requested.foldl (fun acc f => if f ∈ acc then acc else acc ++ [f]) acc

/-- The sequence of `'feature'` fields of the list built by
`RecommendationEngine._recommend_features`: the detected feature
categories (each with priority `'high'`), then the first three business
features for `additional_info['business_type']` (priority `'medium'`),
then any not-yet-present requested features.  The `'description'`,
`'priority'`, `'estimated_effort'` and `'estimated_cost'` fields do not
influence which ids appear (`estimated_effort` / `estimated_cost` are
fresh uniform random draws, handed to the estimators as inputs below), so
the embedding tracks the ids. -/
def _recommend_features (detected : List String) (business_type : String)
    (requested : List String) : List String :=
  addRequested (detected ++ ((business_features.lookup business_type).getD []).take 3) requested

/-! ### Tech-stack selector (`_recommend_tech_stack`) -/

/-- The business-type-driven choice of stack id in `_recommend_tech_stack`
(before the `tech_stack_preference` override). -/
def selectStackId (platform business_type : String) : String :=
  if platform = "mobile" then
    if business_type = "restaurant" ∨ business_type = "logistics" then "flutter"
    else if business_type = "healthcare" ∨ business_type = "finance" then "react_native"
    else "flutter"
  else if platform = "web" then
    if business_type = "retail" ∨ business_type = "real_estate" then "mern"
    else if business_type = "healthcare" ∨ business_type = "finance" then "django"
    else if business_type = "education" then "laravel"
    else "mern"
  else "electron"

/-- The dictionary `_recommend_tech_stack` returns in the normal case. -/
structure TechStackRec where
  tech_stack : String
  name : String
  description : String
  pros : List String
  cons : List String
  cost_factor : ℚ
  timeline_factor : ℚ
  confidence : ℚ
  deriving Repr, DecidableEq

/-- `RecommendationEngine._recommend_tech_stack`.  `none` models the
sentinel `'Unknown'` dictionary returned when the platform has no
registered stacks (that dictionary carries no `'cost_factor'` /
`'timeline_factor'` keys; the estimators' `.get(..., 1.0)` defaults below
correspond to it). -/
def _recommend_tech_stack (platform_rec : PlatformRec) (business_type : String)
    (tech_stack_preference : Option String) : Option TechStackRec :=
  let available_stacks := (tech_stacks.lookup platform_rec.platform).getD []
  match available_stacks with
  | [] => none
  | first :: _ =>
    let recommended_stack :=
      match tech_stack_preference with
      | some p => p
      | none => selectStackId platform_rec.platform business_type
    let info := (available_stacks.lookup recommended_stack).getD first.2
    some { tech_stack := recommended_stack, name := info.name,
           description := info.description, pros := info.pros, cons := info.cons,
           cost_factor := info.cost_factor, timeline_factor := info.timeline_factor,
           confidence := platform_rec.confidence }

/-! ### Cost and timeline estimators -/

/-- The `base_cost` table of `_estimate_cost`. -/
def base_cost_table : List (String × ℚ) :=
  [("mobile", 15000), ("web", 12000), ("desktop", 10000)]

/-- The `base_timeline` table of `_estimate_timeline` (weeks). -/
def base_timeline_table : List (String × ℚ) :=
  [("mobile", 12), ("web", 10), ("desktop", 8)]

/-- The `business_multipliers` table of `_estimate_cost`. -/
def business_multipliers : List (String × ℚ) :=
  [("healthcare", 13/10), ("finance", 14/10), ("logistics", 12/10),
   ("retail", 1), ("restaurant", 9/10), ("education", 11/10),
   ("real_estate", 1), ("consulting", 9/10)]

/-- The dictionary `_estimate_cost` returns (`cost_range` split into its
two rounded endpoints; `currency` is the constant `'USD'`). -/
structure CostEstimate where
  base_cost : ℚ
  feature_cost : ℚ
  total_cost : ℚ
  range_low : ℚ
  range_high : ℚ
  deriving Repr, DecidableEq

/-- `RecommendationEngine._estimate_cost`.  `feature_costs` are the
`estimated_cost` fields of `features_rec` (uniform random draws from
[1000, 5000]); `tech_stack_rec = none` models the sentinel stack
dictionary, whose missing `'cost_factor'` key makes
`tech_stack_rec.get('cost_factor', 1.0)` return 1.0.

The source line `business_type, _ = platform_rec.get('business_type',
('retail', 0.5))` always takes the default: `_recommend_platform` stores
its business type under the key `'type'`, so `platform_rec` has no
`'business_type'` key.  Hence `business_type = 'retail'` and the
multiplier below is retail's 1.0 on every call. -/
def _estimate_cost (platform_rec : PlatformRec) (feature_costs : List ℚ)
    (tech_stack_rec : Option TechStackRec) (budget_constraint : Option ℚ) : CostEstimate :=
  let base_platform_cost := (base_cost_table.lookup platform_rec.platform).getD 12000
  let feature_cost := feature_costs.sum
  let tech_stack_cost_factor := match tech_stack_rec with
    | some t => t.cost_factor
    | none => 1
  let business_type := "retail"
  let business_multiplier := (business_multipliers.lookup business_type).getD 1
  let total_cost := (base_platform_cost + feature_cost) * tech_stack_cost_factor * business_multiplier
  let total_cost := match budget_constraint with
    | some b => min total_cost b
    | none => total_cost
  { base_cost := base_platform_cost, feature_cost := feature_cost,
    total_cost := roundQ 2 total_cost,
    range_low := roundQ 2 (total_cost * (8/10)),
    range_high := roundQ 2 (total_cost * (12/10)) }

/-- The dictionary `_estimate_timeline` returns (`timeline_range` split
into its two rounded endpoints; `unit` is the constant `'weeks'`). -/
structure TimelineEstimate where
  base_timeline : ℚ
  feature_timeline : ℚ
  total_timeline : ℚ
  range_low : ℚ
  range_high : ℚ
  deriving Repr, DecidableEq

/-- `RecommendationEngine._estimate_timeline`; `feature_efforts` are the
`estimated_effort` fields of `features_rec`. -/
def _estimate_timeline (platform_rec : PlatformRec) (feature_efforts : List ℚ)
    (tech_stack_rec : Option TechStackRec) (timeline_constraint : Option ℚ) : TimelineEstimate :=
  let base_platform_timeline := (base_timeline_table.lookup platform_rec.platform).getD 10
  let feature_timeline := feature_efforts.sum
  let tech_stack_timeline_factor := match tech_stack_rec with
    | some t => t.timeline_factor
    | none => 1
  let total_timeline := (base_platform_timeline + feature_timeline) * tech_stack_timeline_factor
  let total_timeline := match timeline_constraint with
    | some t => min total_timeline t
    | none => total_timeline
  { base_timeline := base_platform_timeline, feature_timeline := feature_timeline,
    total_timeline := roundQ 1 total_timeline,
    range_low := roundQ 1 (total_timeline * (8/10)),
    range_high := roundQ 1 (total_timeline * (12/10)) }

/-- `RecommendationEngine._calculate_confidence`. -/
def _calculate_confidence (clarity_score business_confidence platform_confidence : ℚ)
    (feature_count : ℕ) : ℚ :=
  roundQ 2 (clarity_score * (3/10) + business_confidence * (3/10) +
    platform_confidence * (2/10) + min 1 ((feature_count : ℚ) / 10) * (2/10))

/-! ### The engine entry point and its failure modes -/

/-- The exceptions the engine can actually raise while reading
`additional_info`: Python's builtin `TypeError` (subscripting `None`) and
`KeyError` (missing key).  No exception class named
`MissingConfigurationError` exists anywhere in the repository. -/
inductive PyError where
  | typeError (msg : String)
  | keyError (key : String)
  deriving Repr, DecidableEq

/-- The caller-supplied `additional_info` dictionary: every field optional. -/
structure AdditionalInfo where
  portability_requirement : Option String := none
  business_type : Option String := none
  access_requirement : Option String := none
  budget_constraint : Option ℚ := none
  timeline_constraint : Option ℚ := none
  requested_features : Option (List String) := none
  tech_stack_preference : Option String := none
  deriving Repr, DecidableEq

/-- `additional_info[key]`: subscripting `None` raises `TypeError`, a
missing key raises `KeyError`. -/
def dictGet {α : Type} (info : Option AdditionalInfo) (proj : AdditionalInfo → Option α)
    (key : String) : Except PyError α :=
  match info with
  | none => .error (.typeError "NoneType object is not subscriptable")
  | some i =>
    match proj i with
    | none => .error (.keyError key)
    | some v => .ok v

/-- `_recommend_platform` including its reads of `additional_info` (source
lines 235-237), which are unconditional. -/
def recommendPlatformChecked (s : Signals) (info : Option AdditionalInfo) :
    Except PyError PlatformRec := do
  let portability ← dictGet info (fun i => i.portability_requirement) "portability_requirement"
  let business_type ← dictGet info (fun i => i.business_type) "business_type"
  let access ← dictGet info (fun i => i.access_requirement) "access_requirement"
  return _recommend_platform s portability business_type access

/-- The aggregate dictionary `generate_recommendation` returns, with
feature recommendations tracked by their ids as in `_recommend_features`. -/
structure Recommendation where
  needs_clarification : Bool
  clarification_questions : List String
  platform_recommendation : PlatformRec
  feature_ids : List String
  tech_stack_recommendation : Option TechStackRec
  cost_estimate : CostEstimate
  timeline_estimate : TimelineEstimate
  confidence_score : ℚ
  deriving Repr, DecidableEq

/-- `RecommendationEngine.generate_recommendation` on the already-analyzed
signals `s` of `client_input`.  `feature_costs` / `feature_efforts` stand
for the per-feature random draws consumed by the estimators.  The
computation is sequenced exactly as in the source; the first failing
`additional_info` access aborts the call, so no partially-built
recommendation is ever returned. -/
def generate_recommendation (s : Signals) (info : Option AdditionalInfo)
    (feature_costs feature_efforts : List ℚ) : Except PyError Recommendation := do
  let needsClarification := needs_clarification s
  let clarificationQuestions := generate_clarification_questions s
  let platform_rec ← recommendPlatformChecked s info
  let business_type ← dictGet info (fun i => i.business_type) "business_type"
  let features_rec := _recommend_features s.detectedFeatures business_type
    ((info.bind (fun i => i.requested_features)).getD [])
  let tech_stack_rec := _recommend_tech_stack platform_rec business_type
    (info.bind (fun i => i.tech_stack_preference))
  let cost_estimate := _estimate_cost platform_rec feature_costs tech_stack_rec
    (info.bind (fun i => i.budget_constraint))
  let timeline_estimate := _estimate_timeline platform_rec feature_efforts tech_stack_rec
    (info.bind (fun i => i.timeline_constraint))
  return { needs_clarification := needsClarification,
           clarification_questions := clarificationQuestions,
           platform_recommendation := platform_rec,
           feature_ids := features_rec,
           tech_stack_recommendation := tech_stack_rec,
           cost_estimate := cost_estimate,
           timeline_estimate := timeline_estimate,
           confidence_score := _calculate_confidence s.clarityScore s.businessType.2
             platform_rec.confidence features_rec.length }

/-! ### Concrete inputs used by the witnesses below -/

/-- A fully vague signals value: empty input analysis defaults. -/
def sigVague : Signals :=
  { clarityScore := 0, businessType := ("unknown", 0),
    platformPreference := ("web", 3/10), detectedFeatures := [],
    budgetMentioned := false, timelineMentioned := false,
    notificationRequirement := "none" }

/-- A clear retail-flavoured signals value (an online-store request). -/
def sigStore : Signals :=
  { clarityScore := 1, businessType := ("retail", 38/100),
    platformPreference := ("web", 17/100), detectedFeatures := ["inventory"],
    budgetMentioned := false, timelineMentioned := false,
    notificationRequirement := "none" }

/-! ## Helper lemmas -/

theorem rhe_intCast (k : ℤ) : rhe (k : ℚ) = k := by
  norm_num [rhe]

theorem rhe_le_floor_add_one (x : ℚ) : rhe x ≤ ⌊x⌋ + 1 := by
  unfold rhe; split_ifs <;> omega

theorem floor_le_rhe (x : ℚ) : ⌊x⌋ ≤ rhe x := by
  unfold rhe; split_ifs <;> omega

theorem rhe_mono {x y : ℚ} (h : x ≤ y) : rhe x ≤ rhe y := by
  have hf : ⌊x⌋ ≤ ⌊y⌋ := Int.floor_le_floor h
  rcases lt_or_eq_of_le hf with hlt | heq
  · have h1 := rhe_le_floor_add_one x
    have h2 := floor_le_rhe y
    omega
  · have hr : x - ⌊x⌋ ≤ y - ⌊y⌋ := by
      rw [← heq]; linarith
    unfold rhe
    rw [← heq]
    split_ifs <;> first | omega | linarith

theorem roundQ_mono (n : ℕ) {x y : ℚ} (h : x ≤ y) : roundQ n x ≤ roundQ n y := by
  unfold roundQ
  have hp : (0 : ℚ) < 10 ^ n := by positivity
  have h2 := rhe_mono (mul_le_mul_of_nonneg_right h (le_of_lt hp))
  gcongr

theorem roundQ_int_div (n : ℕ) (k : ℤ) : roundQ n ((k : ℚ) / 10 ^ n) = (k : ℚ) / 10 ^ n := by
  unfold roundQ
  have hp : (10 : ℚ) ^ n ≠ 0 := by positivity
  rw [div_mul_cancel₀ _ hp, rhe_intCast]

/-- The key correctness property of rounding against a constraint: if the
bound `b` is exactly representable at the rounding precision then
rounding a value `≤ b` stays `≤ b`. -/
theorem roundQ_le_of_le {n : ℕ} {x b : ℚ} {k : ℤ}
    (hb : b = (k : ℚ) / 10 ^ n) (h : x ≤ b) : roundQ n x ≤ b := by
  calc roundQ n x ≤ roundQ n b := roundQ_mono n h
    _ = b := by rw [hb, roundQ_int_div]

theorem roundQ_zero (n : ℕ) : roundQ n 0 = 0 := by
  have : (0 : ℚ) = ((0 : ℤ) : ℚ) / 10 ^ n := by simp
  rw [this, roundQ_int_div]

theorem roundQ_one (n : ℕ) : roundQ n 1 = 1 := by
  have hp : ((10 : ℚ) ^ n) ≠ 0 := by positivity
  have h1 : (1 : ℚ) = ((10 ^ n : ℤ) : ℚ) / 10 ^ n := by
    push_cast
    exact (div_self hp).symm
  rw [h1, roundQ_int_div]

theorem roundQ_mem_unit {n : ℕ} {x : ℚ} (h0 : 0 ≤ x) (h1 : x ≤ 1) :
    0 ≤ roundQ n x ∧ roundQ n x ≤ 1 := by
  constructor
  · have := roundQ_mono n h0
    rwa [roundQ_zero] at this
  · have := roundQ_mono n h1
    rwa [roundQ_one] at this


/-- The unfolded total of `_estimate_cost` with no budget constraint. -/
theorem estimate_cost_total_def_none (pr : PlatformRec) (fc : List ℚ)
    (ts : Option TechStackRec) :
    (_estimate_cost pr fc ts none).total_cost =
      roundQ 2 ((((base_cost_table.lookup pr.platform).getD 12000) + fc.sum) *
        (match ts with | some t => t.cost_factor | none => 1) *
        ((business_multipliers.lookup "retail").getD 1)) := rfl

/-- The unfolded total of `_estimate_cost` under a budget constraint. -/
theorem estimate_cost_total_def (pr : PlatformRec) (fc : List ℚ)
    (ts : Option TechStackRec) (b : ℚ) :
    (_estimate_cost pr fc ts (some b)).total_cost =
      roundQ 2 (min ((((base_cost_table.lookup pr.platform).getD 12000) + fc.sum) *
        (match ts with | some t => t.cost_factor | none => 1) *
        ((business_multipliers.lookup "retail").getD 1)) b) := rfl

/-- The unfolded total of `_estimate_timeline` under a timeline constraint. -/
theorem estimate_timeline_total_def (pr : PlatformRec) (fe : List ℚ)
    (ts : Option TechStackRec) (t : ℚ) :
    (_estimate_timeline pr fe ts (some t)).total_timeline =
      roundQ 1 (min ((((base_timeline_table.lookup pr.platform).getD 10) + fe.sum) *
        (match ts with | some s => s.timeline_factor | none => 1)) t) := rfl

/-! ## Claim C7 -/

/-- C7: for every input text the extracted notification requirement is
`"major"` exactly when at least two distinct major-notification keywords
occur as substrings of the lower-cased text, `"minor"` when fewer than two
major keywords but at least one minor keyword occur, and `"none"`
otherwise; in particular `"urgent real-time alert tracking"` yields
`"major"`. -/
theorem notification_requirement_correct (text : String) :
    (_detect_notification_requirement text = "major" ↔
      2 ≤ countMatches major_notification_keywords text) ∧
    (_detect_notification_requirement text = "minor" ↔
      (countMatches major_notification_keywords text < 2 ∧
        0 < countMatches minor_notification_keywords text)) ∧
    (_detect_notification_requirement text = "none" ↔
      (countMatches major_notification_keywords text < 2 ∧
        countMatches minor_notification_keywords text = 0)) ∧
    _detect_notification_requirement "urgent real-time alert tracking" = "major" := by
  refine ⟨?_, ?_, ?_, by decide⟩ <;>
    · unfold _detect_notification_requirement
      split_ifs <;> simp_all <;> omega


/-! ## Claim C5 -/

/-- C5: for every signals value, `generate_clarification_questions`
returns the first three applicable questions in the fixed priority order
given by `clarificationRules` (each included only if its condition
holds), hence at most three questions; and `needs_clarification` is true
whenever the clarity score is below 0.5. -/
theorem clarification_policy_correct (s : Signals) :
    generate_clarification_questions s = questionsSpec s ∧
    (generate_clarification_questions s).length ≤ 3 ∧
    (s.clarityScore < 5/10 → needs_clarification s = true) := by
  refine ⟨?_, ?_, ?_⟩
  · cases h1 : (s.businessType.1 == "unknown" || decide (s.businessType.2 < 3/10)) <;>
    cases h2 : (s.detectedFeatures.length == 0) <;>
    cases h3 : s.budgetMentioned <;>
    cases h4 : s.timelineMentioned <;>
    cases h5 : (decide (s.clarityScore < 4/10)) <;>
      simp [generate_clarification_questions, questionsSpec, clarificationRules,
        h1, h2, h3, h4, h5, List.filter]
  · simp only [generate_clarification_questions]
    split_ifs <;> simp [List.length_take]
  · intro h
    simp [needs_clarification, h]

/-- C5 witness: the theorem instantiated at the fully vague signals. -/
theorem clarification_policy_correct_witness :
    generate_clarification_questions sigVague = questionsSpec sigVague ∧
    (generate_clarification_questions sigVague).length ≤ 3 ∧
    needs_clarification sigVague = true :=
  ⟨(clarification_policy_correct sigVague).1,
   (clarification_policy_correct sigVague).2.1,
   (clarification_policy_correct sigVague).2.2 (by norm_num [sigVague])⟩

/-! ## Claim C6 -/

/-- C6: the confidence score is
`clarity×0.3 + business_confidence×0.3 + platform_confidence×0.2 +
min(1, feature_count/10)×0.2` rounded to two decimals, and lies in [0, 1]
whenever the three input scores lie in [0, 1]. -/
theorem confidence_score_correct (clarity bconf pconf : ℚ) (n : ℕ)
    (hc0 : 0 ≤ clarity) (hc1 : clarity ≤ 1) (hb0 : 0 ≤ bconf) (hb1 : bconf ≤ 1)
    (hp0 : 0 ≤ pconf) (hp1 : pconf ≤ 1) :
    _calculate_confidence clarity bconf pconf n =
      roundQ 2 (clarity * (3/10) + bconf * (3/10) + pconf * (2/10) +
        min 1 ((n : ℚ) / 10) * (2/10)) ∧
    0 ≤ _calculate_confidence clarity bconf pconf n ∧
    _calculate_confidence clarity bconf pconf n ≤ 1 := by
  refine ⟨rfl, ?_⟩
  have hmin0 : (0 : ℚ) ≤ min 1 ((n : ℚ) / 10) := le_min (by norm_num) (by positivity)
  have hmin1 : min 1 ((n : ℚ) / 10) ≤ 1 := min_le_left _ _
  have h0 : 0 ≤ clarity * (3/10) + bconf * (3/10) + pconf * (2/10) +
      min 1 ((n : ℚ) / 10) * (2/10) := by
    have a1 := mul_nonneg hc0 (by norm_num : (0:ℚ) ≤ 3/10)
    have a2 := mul_nonneg hb0 (by norm_num : (0:ℚ) ≤ 3/10)
    have a3 := mul_nonneg hp0 (by norm_num : (0:ℚ) ≤ 2/10)
    have a4 := mul_nonneg hmin0 (by norm_num : (0:ℚ) ≤ 2/10)
    linarith
  have h1 : clarity * (3/10) + bconf * (3/10) + pconf * (2/10) +
      min 1 ((n : ℚ) / 10) * (2/10) ≤ 1 := by
    have a1 := mul_le_mul_of_nonneg_right hc1 (by norm_num : (0:ℚ) ≤ 3/10)
    have a2 := mul_le_mul_of_nonneg_right hb1 (by norm_num : (0:ℚ) ≤ 3/10)
    have a3 := mul_le_mul_of_nonneg_right hp1 (by norm_num : (0:ℚ) ≤ 2/10)
    have a4 := mul_le_mul_of_nonneg_right hmin1 (by norm_num : (0:ℚ) ≤ 2/10)
    linarith
  exact roundQ_mem_unit h0 h1

/-- C6 witness: a fully confident analysis with ten features scores 1.0. -/
theorem confidence_score_correct_witness :
    _calculate_confidence 1 1 1 10 =
      roundQ 2 (1 * (3/10) + 1 * (3/10) + 1 * (2/10) + min 1 ((10 : ℚ) / 10) * (2/10)) ∧
    0 ≤ _calculate_confidence 1 1 1 10 ∧ _calculate_confidence 1 1 1 10 ≤ 1 :=
  confidence_score_correct 1 1 1 10 (by norm_num) (by norm_num) (by norm_num)
    (by norm_num) (by norm_num) (by norm_num)

/-! ## Claim C2 -/

/-- The fold inside `pyMaxBy` returns either its accumulator or a list
element. -/
theorem foldl_pymax_mem :
    ∀ (l : List (String × ℕ)) (b : String × ℕ),
      l.foldl (fun b a => if b.2 < a.2 then a else b) b ∈ b :: l := by
  intro l
  induction l with
  | nil => intro b; simp
  | cons a t ih =>
    intro b
    have h := ih (if b.2 < a.2 then a else b)
    simp only [List.foldl_cons]
    rcases List.mem_cons.mp h with h1 | h1
    · rw [h1]; split_ifs <;> simp
    · simp [List.mem_cons.mpr (Or.inr h1)]

/-- `pyMaxBy` of a nonempty list is one of its entries. -/
theorem pyMaxBy_mem (x : String × ℕ) (xs : List (String × ℕ)) :
    pyMaxBy (x :: xs) ∈ x :: xs := by
  simpa [pyMaxBy] using foldl_pymax_mem xs x

/-- The detected platform preference is always one of the three platform
table keys (or the `"web"` default). -/
theorem detect_platform_mem (text : String) :
    (_detect_platform_preference text).1 ∈ (["mobile", "web", "desktop"] : List String) := by
  unfold _detect_platform_preference
  split_ifs with h
  · simp
  · have hmem : pyMaxBy (platformScores text) ∈ platformScores text := by
      unfold platformScores platform_indicators
      simp only [List.map_cons, List.map_nil]
      exact pyMaxBy_mem _ _
    have : (pyMaxBy (platformScores text)).1 ∈ (platformScores text).map Prod.fst :=
      List.mem_map_of_mem Prod.fst hmem
    simpa [platformScores, platform_indicators] using this

/-- On the three legal notification enum values, lowering is the identity
and equality with `"major"` transfers through `lowerStr`. -/
theorem lower_notification_eq (s : Signals)
    (hn : s.notificationRequirement ∈ (["none", "minor", "major"] : List String)) :
    (lowerStr s.notificationRequirement = "major".data) ↔
      s.notificationRequirement = "major" := by
  rcases List.mem_cons.mp hn with h | hn
  · rw [h]; decide
  rcases List.mem_cons.mp hn with h | hn
  · rw [h]; decide
  rcases List.mem_cons.mp hn with h | hn
  · rw [h]; decide
  · simp at hn

/-- C2: the platform recommender applies the decision order with first
match winning — high portability or a major notification requirement
gives mobile at 0.95; otherwise low portability or offline access gives
desktop at 0.90; otherwise the detected platform preference at 0.90.  The
returned business type is the caller-supplied one, the returned platform
is one of mobile/web/desktop whenever the detected preference is, and the
detected preference always is. -/
theorem platform_recommender_correct (s : Signals) (portability business_type access : String)
    (hn : s.notificationRequirement ∈ (["none", "minor", "major"] : List String)) :
    (portability = "high" ∨ s.notificationRequirement = "major" →
      (_recommend_platform s portability business_type access).platform = "mobile" ∧
      (_recommend_platform s portability business_type access).confidence = 95/100) ∧
    (portability ≠ "high" → s.notificationRequirement ≠ "major" →
      (portability = "low" ∨ access = "offline") →
      (_recommend_platform s portability business_type access).platform = "desktop" ∧
      (_recommend_platform s portability business_type access).confidence = 9/10) ∧
    (portability ≠ "high" → s.notificationRequirement ≠ "major" →
      portability ≠ "low" → access ≠ "offline" →
      (_recommend_platform s portability business_type access).platform =
        s.platformPreference.1 ∧
      (_recommend_platform s portability business_type access).confidence = 9/10) ∧
    (_recommend_platform s portability business_type access).type = business_type ∧
    (s.platformPreference.1 ∈ (["mobile", "web", "desktop"] : List String) →
      (_recommend_platform s portability business_type access).platform ∈
        (["mobile", "web", "desktop"] : List String)) ∧
    (∀ text : String,
      (_detect_platform_preference text).1 ∈ (["mobile", "web", "desktop"] : List String)) := by
  have hmaj := lower_notification_eq s hn
  unfold _recommend_platform
  refine ⟨?_, ?_, ?_, ?_, ?_, detect_platform_mem⟩
  · intro h
    rw [if_pos (by rcases h with h | h; exacts [Or.inl h, Or.inr (hmaj.mpr h)])]
    exact ⟨rfl, rfl⟩
  · intro h1 h2 h3
    rw [if_neg (by rintro (h | h); exacts [h1 h, h2 (hmaj.mp h)]), if_pos h3]
    exact ⟨rfl, rfl⟩
  · intro h1 h2 h3 h4
    rw [if_neg (by rintro (h | h); exacts [h1 h, h2 (hmaj.mp h)]),
        if_neg (by rintro (h | h); exacts [h3 h, h4 h])]
    exact ⟨rfl, rfl⟩
  · split_ifs <;> rfl
  · intro hp
    split_ifs <;> simp_all
  
/-- C2 witness: high portability forces mobile, and all side conditions
hold at a concrete offline desktop request too. -/
theorem platform_recommender_correct_witness :
    (_recommend_platform sigStore "high" "retail" "online").platform = "mobile" ∧
    (_recommend_platform sigStore "high" "retail" "online").confidence = 95/100 ∧
    (_recommend_platform sigStore "medium" "retail" "offline").platform = "desktop" ∧
    (_recommend_platform sigStore "medium" "retail" "online").platform = "web" ∧
    (_recommend_platform sigStore "medium" "retail" "online").type = "retail" := by
  have hn : sigStore.notificationRequirement ∈ (["none", "minor", "major"] : List String) := by
    decide
  have h1 := (platform_recommender_correct sigStore "high" "retail" "online" hn).1
    (Or.inl rfl)
  have h2 := (platform_recommender_correct sigStore "medium" "retail" "offline" hn).2.1
    (by decide) (by decide) (Or.inr rfl)
  have h3 := (platform_recommender_correct sigStore "medium" "retail" "online" hn).2.2.1
    (by decide) (by decide) (by decide) (by decide)
  have h4 := (platform_recommender_correct sigStore "medium" "retail" "online" hn).2.2.2.1
  exact ⟨h1.1, h1.2, h2.1, by rw [h3.1]; rfl, h4⟩

/-! ## Claim C10 -/

/-- C10: for a platform with registered stacks and a tech-stack preference
that is not one of that platform's stack ids, the selector raises no
error: it returns the preference string verbatim in `tech_stack` while
copying name, description, pros, cons and both factors from the
platform's first registered stack in insertion order (flutter for mobile,
mern for web, electron for desktop). -/
theorem tech_stack_preference_verbatim (ty rs bt platform pref : String) (conf : ℚ)
    (hp : platform ∈ (["mobile", "web", "desktop"] : List String))
    (hpref : pref ∉ ((tech_stacks.lookup platform).getD []).map Prod.fst) :
    (platform = "mobile" → _recommend_tech_stack ⟨ty, platform, conf, rs⟩ bt (some pref) =
      some { tech_stack := pref, name := "Flutter + Firebase",
             description := "Cross-platform mobile development with cloud backend",
             pros := ["Cross-platform", "Fast development", "Rich UI components"],
             cons := ["Limited native features", "Large app size"],
             cost_factor := 1, timeline_factor := 1, confidence := conf }) ∧
    (platform = "web" → _recommend_tech_stack ⟨ty, platform, conf, rs⟩ bt (some pref) =
      some { tech_stack := pref, name := "MERN Stack (MongoDB, Express, React, Node.js)",
             description := "Full-stack JavaScript development",
             pros := ["Fast development", "Large ecosystem", "Scalable"],
             cons := ["JavaScript everywhere", "Learning curve"],
             cost_factor := 8/10, timeline_factor := 9/10, confidence := conf }) ∧
    (platform = "desktop" → _recommend_tech_stack ⟨ty, platform, conf, rs⟩ bt (some pref) =
      some { tech_stack := pref, name := "Electron + React",
             description := "Cross-platform desktop development",
             pros := ["Cross-platform", "Web technologies", "Rapid development"],
             cons := ["Large app size", "Memory usage", "Security concerns"],
             cost_factor := 8/10, timeline_factor := 9/10, confidence := conf }) := by
  have hp3 : platform = "mobile" ∨ platform = "web" ∨ platform = "desktop" := by
    simpa using hp
  rcases hp3 with h | h | h <;> subst h <;>
    refine ⟨fun hq => ?_, fun hq => ?_, fun hq => ?_⟩ <;> try simp at hq
  · have hm : pref ∉ (["flutter", "react_native", "native_ios", "native_android"] :
        List String) := by simpa [tech_stacks, List.lookup] using hpref
    simp only [List.mem_cons, List.not_mem_nil, or_false, not_or] at hm
    obtain ⟨h1, h2, h3, h4⟩ := hm
    simp [_recommend_tech_stack, tech_stacks, List.lookup,
      beq_eq_false_iff_ne.mpr h1, beq_eq_false_iff_ne.mpr h2,
      beq_eq_false_iff_ne.mpr h3, beq_eq_false_iff_ne.mpr h4]
  · have hm : pref ∉ (["mern", "mean", "django", "laravel"] : List String) := by
      simpa [tech_stacks, List.lookup] using hpref
    simp only [List.mem_cons, List.not_mem_nil, or_false, not_or] at hm
    obtain ⟨h1, h2, h3, h4⟩ := hm
    simp [_recommend_tech_stack, tech_stacks, List.lookup,
      beq_eq_false_iff_ne.mpr h1, beq_eq_false_iff_ne.mpr h2,
      beq_eq_false_iff_ne.mpr h3, beq_eq_false_iff_ne.mpr h4]
  · have hm : pref ∉ (["electron", "qt", "wpf"] : List String) := by
      simpa [tech_stacks, List.lookup] using hpref
    simp only [List.mem_cons, List.not_mem_nil, or_false, not_or] at hm
    obtain ⟨h1, h2, h3⟩ := hm
    simp [_recommend_tech_stack, tech_stacks, List.lookup,
      beq_eq_false_iff_ne.mpr h1, beq_eq_false_iff_ne.mpr h2,
      beq_eq_false_iff_ne.mpr h3]

/-- C10 witness: an unregistered preference `"svelte"` on the web platform
is echoed verbatim with the MERN stack's data. -/
theorem tech_stack_preference_verbatim_witness :
    _recommend_tech_stack ⟨"retail", "web", 9/10, "r"⟩ "retail" (some "svelte") =
      some { tech_stack := "svelte",
             name := "MERN Stack (MongoDB, Express, React, Node.js)",
             description := "Full-stack JavaScript development",
             pros := ["Fast development", "Large ecosystem", "Scalable"],
             cons := ["JavaScript everywhere", "Learning curve"],
             cost_factor := 8/10, timeline_factor := 9/10, confidence := 9/10 } :=
  (tech_stack_preference_verbatim "retail" "r" "retail" "web" "svelte" (9/10)
    (by simp) (by simp [tech_stacks, List.lookup])).2.1 rfl

/-! ## Claim C1 -/

/-- C1 (code defect): the business-type cost multiplier is never applied.
`_estimate_cost` reads `platform_rec.get('business_type', ('retail', 0.5))`,
but the platform recommendation stores its business type under the key
`'type'`, so the lookup always yields the default and the multiplier is
retail's 1.0.  For a healthcare recommendation on mobile with one
1000-dollar feature and the flutter stack (cost factor 1.0), the code
returns a total of 16000, while the documented formula
`(base + features) × cost_factor × business_multiplier[healthcare]`
yields 20800. -/
theorem cost_multiplier_never_applied :
    (_estimate_cost ⟨"healthcare", "mobile", 95/100, ""⟩ [1000]
        (some ⟨"flutter", "Flutter + Firebase", "Cross-platform mobile development with cloud backend",
          ["Cross-platform", "Fast development", "Rich UI components"],
          ["Limited native features", "Large app size"], 1, 1, 95/100⟩) none).total_cost = 16000 ∧
    (business_multipliers.lookup "healthcare").getD 1 = 13/10 ∧
    ((15000 : ℚ) + 1000) * 1 * (13/10) = 20800 ∧
    (16000 : ℚ) ≠ 20800 := by
  refine ⟨?_, by simp [business_multipliers, List.lookup], by norm_num, by norm_num⟩
  rw [estimate_cost_total_def_none]
  simp [base_cost_table, business_multipliers, List.lookup]
  norm_num [roundQ, rhe]

/-! ## Claim C3 -/




/-- C3 counterexample: with a budget constraint of 0.006 dollars the
reported total cost is `round(min(total, 0.006), 2) = 0.01 > 0.006`, so
`total_cost ≤ budget_constraint` fails as stated. -/
theorem budget_constraint_violated_by_rounding :
    (_estimate_cost ⟨"retail", "mobile", 9/10, ""⟩ []
        (some ⟨"flutter", "Flutter + Firebase", "Cross-platform mobile development with cloud backend",
          ["Cross-platform", "Fast development", "Rich UI components"],
          ["Limited native features", "Large app size"], 1, 1, 9/10⟩)
        (some (6/1000))).total_cost = 1/100 ∧
    ¬ (_estimate_cost ⟨"retail", "mobile", 9/10, ""⟩ []
        (some ⟨"flutter", "Flutter + Firebase", "Cross-platform mobile development with cloud backend",
          ["Cross-platform", "Fast development", "Rich UI components"],
          ["Limited native features", "Large app size"], 1, 1, 9/10⟩)
        (some (6/1000))).total_cost ≤ 6/1000 := by
  have h : (_estimate_cost ⟨"retail", "mobile", 9/10, ""⟩ []
      (some ⟨"flutter", "Flutter + Firebase", "Cross-platform mobile development with cloud backend",
        ["Cross-platform", "Fast development", "Rich UI components"],
        ["Limited native features", "Large app size"], 1, 1, 9/10⟩)
      (some (6/1000))).total_cost = 1/100 := by
    rw [estimate_cost_total_def]
    simp [base_cost_table, business_multipliers, List.lookup]
    norm_num [min_def, roundQ, rhe]
  exact ⟨h, by rw [h]; norm_num⟩

/-- C3 amended: whenever the supplied budget constraint is an integer
multiple of 0.01 (the rounding precision of `total_cost`) the reported
total cost is at most the budget constraint, and whenever the timeline
constraint is an integer multiple of 0.1 the reported total timeline is
at most the timeline constraint.  (In general the final rounding can push
the capped total above a finer-grained constraint, as the counterexample
shows.) -/
theorem constraints_cap_totals (pr : PlatformRec) (fc fe : List ℚ)
    (ts : Option TechStackRec) (b t : ℚ) (kb kt : ℤ)
    (hb : b = (kb : ℚ) / 100) (ht : t = (kt : ℚ) / 10) :
    (_estimate_cost pr fc ts (some b)).total_cost ≤ b ∧
    (_estimate_timeline pr fe ts (some t)).total_timeline ≤ t := by
  constructor
  · rw [estimate_cost_total_def]
    exact roundQ_le_of_le (n := 2) (k := kb) (by rw [hb]; norm_num) (min_le_right _ _)
  · rw [estimate_timeline_total_def]
    exact roundQ_le_of_le (n := 1) (k := kt) (by rw [ht]; norm_num) (min_le_right _ _)

/-- C3 witness: a 100-dollar budget and a 10-week deadline cap the totals. -/
theorem constraints_cap_totals_witness :
    (_estimate_cost ⟨"retail", "mobile", 1, ""⟩ [2000] none (some 100)).total_cost ≤ 100 ∧
    (_estimate_timeline ⟨"retail", "mobile", 1, ""⟩ [4] none (some 10)).total_timeline ≤ 10 :=
  constraints_cap_totals ⟨"retail", "mobile", 1, ""⟩ [2000] [4] none 100 10 10000 100
    (by norm_num) (by norm_num)

/-! ## Claim C9 -/

/-- C9 (code defect): no `MissingConfigurationError` exists in the
repository.  When `additional_info` is absent the engine fails inside
`_recommend_platform` with Python's generic `TypeError` (subscripting
`None`), and when one of the three required keys is missing it fails with
a generic `KeyError`; in each case the call aborts before any
recommendation is assembled, so no partially-built recommendation is
returned (but the spec's named, typed error is never raised). -/
theorem missing_additional_info_raises_generic_fault :
    generate_recommendation sigStore none [] [] =
      .error (.typeError "NoneType object is not subscriptable") ∧
    generate_recommendation sigStore (some {}) [] [] =
      .error (.keyError "portability_requirement") ∧
    generate_recommendation sigStore
        (some { portability_requirement := some "medium" }) [] [] =
      .error (.keyError "business_type") ∧
    generate_recommendation sigStore
        (some { portability_requirement := some "medium", business_type := some "retail" }) [] [] =
      .error (.keyError "access_requirement") := by
  exact ⟨rfl, rfl, rfl, rfl⟩

/-! ## Claim C8 -/

/-- Looking up any business type yields: its base-feature list is
duplicate-free (already in its first three entries) and shares no id with
the detected-feature category ids. -/
theorem base_features_ok (bt : String) :
    (((business_features.lookup bt).getD []).take 3).Nodup ∧
    ∀ x ∈ ((business_features.lookup bt).getD []).take 3,
      x ∉ feature_keywords.map Prod.fst := by
  simp only [business_features, List.lookup]
  repeat' split
  all_goals decide

/-- The `requested_features` loop preserves duplicate-freedom: a feature
is appended only when not already present. -/
theorem addRequested_nodup :
    ∀ (requested acc : List String), acc.Nodup → (addRequested acc requested).Nodup := by
  intro requested
  induction requested with
  | nil => intro acc h; exact h
  | cons f t ih =>
    intro acc h
    show (addRequested (if f ∈ acc then acc else acc ++ [f]) t).Nodup
    split_ifs with hf
    · exact ih acc h
    · exact ih (acc ++ [f]) (by simp [List.nodup_append, h, hf])

/-- C8: for every analysis (whose detected features come from
`_extract_features`) and every caller-supplied business type and
requested-feature list, the feature ids produced by the feature
recommender are pairwise distinct. -/
theorem feature_ids_distinct (text business_type : String) (requested : List String) :
    (_recommend_features (_extract_features text) business_type requested).Nodup := by
  apply addRequested_nodup
  have hsub : (_extract_features text).Sublist (feature_keywords.map Prod.fst) :=
    (List.filter_sublist _).map Prod.fst
  have hdet : (_extract_features text).Nodup :=
    (by decide : (feature_keywords.map Prod.fst).Nodup).sublist hsub
  obtain ⟨hbase, hdisj⟩ := base_features_ok business_type
  rw [List.nodup_append]
  exact ⟨hdet, hbase, fun x hx hx' => hdisj x hx' (hsub.subset hx)⟩

/-! ## Claim C4 -/

/-- The fold inside `pyMaxBy` splits its input into a strictly-smaller
prefix, the returned entry, and a no-larger suffix: Python's
`max(scores, key=scores.get)` keeps the current best on ties, so the
returned entry is the first one attaining the maximum. -/
theorem foldl_pymax_split :
    ∀ (xs : List (String × ℕ)) (b : String × ℕ),
      ∃ l1 l2,
        b :: xs = l1 ++ (xs.foldl (fun b a => if b.2 < a.2 then a else b) b) :: l2 ∧
        (∀ p ∈ l1, p.2 < (xs.foldl (fun b a => if b.2 < a.2 then a else b) b).2) ∧
        (∀ p ∈ l2, p.2 ≤ (xs.foldl (fun b a => if b.2 < a.2 then a else b) b).2) := by
  intro xs
  induction xs with
  | nil => exact fun b => ⟨[], [], rfl, by simp, by simp⟩
  | cons a t ih =>
    intro b
    simp only [List.foldl_cons]
    by_cases hba : b.2 < a.2
    · rw [if_pos hba]
      obtain ⟨l1, l2, heq, h1, h2⟩ := ih a
      have ha : a.2 ≤ (t.foldl (fun b a => if b.2 < a.2 then a else b) a).2 := by
        cases l1 with
        | nil =>
          simp only [List.nil_append, List.cons.injEq] at heq
          exact le_of_eq (congrArg Prod.snd heq.1)
        | cons q l1' =>
          simp only [List.cons_append, List.cons.injEq] at heq
          have hq := h1 q (by simp)
          rw [← heq.1] at hq
          exact le_of_lt hq
      refine ⟨b :: l1, l2, ?_, ?_, h2⟩
      · rw [List.cons_append, ← heq]
      · intro p hp
        rcases List.mem_cons.mp hp with h | h
        · rw [h]; exact lt_of_lt_of_le hba ha
        · exact h1 p h
    · rw [if_neg hba]
      push_neg at hba
      obtain ⟨l1, l2, heq, h1, h2⟩ := ih b
      cases l1 with
      | nil =>
        simp only [List.nil_append, List.cons.injEq] at heq
        refine ⟨[], a :: t, ?_, by simp, ?_⟩
        · rw [List.nil_append, ← heq.1]
        · intro p hp
          rcases List.mem_cons.mp hp with h | h
          · rw [h, ← heq.1]; exact hba
          · rw [heq.2] at h
            exact h2 p h
      | cons q l1' =>
        simp only [List.cons_append, List.cons.injEq] at heq
        refine ⟨b :: a :: l1', l2, ?_, ?_, h2⟩
        · exact congrArg (fun l => b :: a :: l) heq.2
        · intro p hp
          have hb2 : b.2 < (t.foldl (fun b a => if b.2 < a.2 then a else b) b).2 := by
            have hq := h1 q (by simp)
            rw [← heq.1] at hq
            exact hq
          rcases List.mem_cons.mp hp with h | h
          · rw [h]; exact hb2
          rcases List.mem_cons.mp h with h | h
          · rw [h]; exact lt_of_le_of_lt hba hb2
          · exact h1 p (by simp [h])

/-- `pyMaxBy` of a nonempty list splits it into strictly-smaller prefix,
the returned entry, and a no-larger suffix. -/
theorem pyMaxBy_split (l : List (String × ℕ)) (hl : l ≠ []) :
    ∃ l1 l2, l = l1 ++ pyMaxBy l :: l2 ∧
      (∀ p ∈ l1, p.2 < (pyMaxBy l).2) ∧
      (∀ p ∈ l2, p.2 ≤ (pyMaxBy l).2) := by
  match l with
  | [] => exact absurd rfl hl
  | x :: xs => simpa only [pyMaxBy] using foldl_pymax_split xs x

/-- C4 amended: with all-zero keyword counts the classifier returns
`("unknown", 0.0)`; otherwise it returns the first category attaining the
maximal count, with confidence `count / 8` — eight being the size of the
largest keyword set — **rounded to two decimals** (Python's banker's
rounding), not the exact ratio. -/
theorem business_classifier_correct (text : String) :
    ((businessScores text).all (fun p => p.2 = 0) = true →
      _classify_business_type text = ("unknown", 0)) ∧
    (¬ (businessScores text).all (fun p => p.2 = 0) = true →
      maxBusinessKeywordSetSize = 8 ∧
      ∃ l1 l2,
        businessScores text = l1 ++ pyMaxBy (businessScores text) :: l2 ∧
        (∀ p ∈ l1, p.2 < (pyMaxBy (businessScores text)).2) ∧
        (∀ p ∈ l2, p.2 ≤ (pyMaxBy (businessScores text)).2) ∧
        _classify_business_type text =
          ((pyMaxBy (businessScores text)).1,
            roundQ 2 (((pyMaxBy (businessScores text)).2 : ℚ) / 8))) := by
  constructor
  · intro h
    simp [_classify_business_type, h]
  · intro h
    have hne : businessScores text ≠ [] := by
      simp [businessScores, business_keywords]
    obtain ⟨l1, l2, heq, h1, h2⟩ := pyMaxBy_split (businessScores text) hne
    refine ⟨by decide, l1, l2, heq, h1, h2, ?_⟩
    simp only [_classify_business_type, if_neg h,
      show maxBusinessKeywordSetSize = 8 from by decide]
    norm_num

/-- C4 witness: the input `"store"` matches exactly one retail keyword and
nothing else, so the classifier returns retail with confidence
`round(1/8, 2) = 0.12`. -/
theorem business_classifier_correct_witness :
    businessScores "store" =
      [("retail", 1), ("restaurant", 0), ("healthcare", 0), ("education", 0),
       ("logistics", 0), ("finance", 0), ("real_estate", 0), ("consulting", 0)] ∧
    _classify_business_type "store" = ("retail", roundQ 2 ((1 : ℚ) / 8)) := by
  have h := (business_classifier_correct "store").2 (by decide)
  obtain ⟨-, l1, l2, heq, h1, h2, hcls⟩ := h
  have hscores : businessScores "store" =
      [("retail", 1), ("restaurant", 0), ("healthcare", 0), ("education", 0),
       ("logistics", 0), ("finance", 0), ("real_estate", 0), ("consulting", 0)] := by decide
  have hmax : pyMaxBy (businessScores "store") = ("retail", 1) := by
    rw [hscores]; decide
  refine ⟨hscores, ?_⟩
  rw [hcls, hmax]
  norm_num

/-- C4 counterexample: as stated, the claim asserts that the confidence
equals `count / 8` exactly; on input `"store"` the count is 1 but the
returned confidence is `round(0.125, 2) = 0.12 ≠ 1/8`. -/
theorem business_confidence_not_exact_ratio :
    _classify_business_type "store" = ("retail", 12/100) ∧
    (12/100 : ℚ) ≠ 1/8 := by
  constructor
  · have hscores : businessScores "store" =
        [("retail", 1), ("restaurant", 0), ("healthcare", 0), ("education", 0),
         ("logistics", 0), ("finance", 0), ("real_estate", 0), ("consulting", 0)] := by decide
    simp only [_classify_business_type, hscores,
      show maxBusinessKeywordSetSize = 8 from by decide]
    norm_num [pyMaxBy, roundQ, rhe]
  · norm_num

end ClientClearance
